import Mathlib

/-!
Shallow embedding of the core of the `a2a-authentic-ai-debates` repository:
the session state machine (`src/core/session_manager.py`), the retry/backoff
combinator (`src/core/error_handler.py`), the quality scoring engine
(`src/core/quality_calculator.py`), and the checkpoint subsystem
(`src/core/checkpoint_manager.py`).

Modelling conventions:
- Python `float` values that only ever hold exact decimal configuration
  constants and arithmetic on them are modelled as `Rat`.
- `datetime` values are modelled by their ISO-format strings; the fresh
  values produced by `datetime.now()` and `uuid.uuid4()` are passed in as
  explicit parameters.
- Python dictionaries keyed by strings are modelled as `String → Option α`
  (for the stores, where only lookup/insert/delete are used) or as
  association lists (for data carried inside records).
- The on-disk JSON files of the session manager are modelled as two stores
  (the `sessions` directory and the `completed` directory); the checkpoint
  files as a store keyed by checkpoint type and filename.
-/

/-! ## String-keyed stores (Python `dict` / directory of JSON files) -/

def StrMap (α : Type) : Type := String → Option α

def StrMap.empty {α : Type} : StrMap α := fun _ => none

def StrMap.set {α : Type} (m : StrMap α) (k : String) (v : α) : StrMap α :=
  fun k' => if k' = k then some v else m k'

def StrMap.erase {α : Type} (m : StrMap α) (k : String) : StrMap α :=
  fun k' => if k' = k then none else m k'

/-! ## Data model (`session_manager.py` lines 18-61) -/

/-- `SessionStatus` enumeration (`session_manager.py` line 18). -/
inductive SessionStatus : Type where
  | pending
  | active
  | completed
  | paused
  | error
deriving DecidableEq

/-- String value of a `SessionStatus` member (its `.value`). -/
def SessionStatus.value : SessionStatus → String
  | .pending => "pending"
  | .active => "active"
  | .completed => "completed"
  | .paused => "paused"
  | .error => "error"

/-- `SessionStatus(s)` enum construction: succeeds exactly on the five
member values, raises (here: `none`) otherwise. -/
def SessionStatus.ofValue : String → Option SessionStatus
  | "pending" => some .pending
  | "active" => some .active
  | "completed" => some .completed
  | "paused" => some .paused
  | "error" => some .error
  | _ => none

/-- `DiscussionTurn` dataclass (`session_manager.py` line 27). -/
structure DiscussionTurn : Type where
  turn_number : Nat
  agent_id : String
  agent_name : String
  message : String
  timestamp : String
  response_time : Rat
  metadata : List (String × String)
deriving DecidableEq

/-- One participant dict `{"id": ..., "name": ..., "role": ...}`; the
`role` key may be absent (`participant.get('role', 'unknown')`). -/
structure Participant : Type where
  id : String
  name : String
  role : Option String
deriving DecidableEq

/-- `DebateSession` dataclass (`session_manager.py` line 43). -/
structure DebateSession : Type where
  session_id : String
  topic : String
  participants : List Participant
  status : SessionStatus
  created_at : String
  updated_at : String
  turn_history : List DiscussionTurn
  current_turn : Nat
  max_turns : Nat
  metadata : List (String × String)
deriving DecidableEq

/-! ## Session manager state and operations (`session_manager.py` lines 63-220)

The manager's mutable state: the in-memory `active_sessions` dict, the
`discussions/sessions` directory (live store) and the
`discussions/completed` directory (archival store). -/

structure SessionManagerState : Type where
  active_sessions : StrMap DebateSession
  live_store : StrMap DebateSession
  archive_store : StrMap DebateSession

def SessionManagerState.empty : SessionManagerState :=
  { active_sessions := StrMap.empty, live_store := StrMap.empty,
    archive_store := StrMap.empty }

/-- `save_session` (lines 137-149): write the full record to the completed
directory when status is COMPLETED, else to the sessions directory. -/
def save_session (st : SessionManagerState) (s : DebateSession) : SessionManagerState :=
  if s.status = SessionStatus.completed then
    { st with archive_store := st.archive_store.set s.session_id s }
  else
    { st with live_store := st.live_store.set s.session_id s }

/-- `create_session` (lines 76-96). `sid` stands for the fresh
`uuid.uuid4()` string and `now` for `datetime.now().isoformat()`. -/
def create_session (st : SessionManagerState) (topic : String)
    (participants : List Participant) (max_turns : Nat) (sid now : String) :
    DebateSession × SessionManagerState :=
  let session : DebateSession :=
    { session_id := sid, topic := topic, participants := participants,
      status := SessionStatus.pending, created_at := now, updated_at := now,
      turn_history := [], current_turn := 0, max_turns := max_turns,
      metadata := [] }
  let st1 := { st with active_sessions := st.active_sessions.set sid session }
  (session, save_session st1 session)

/-- `complete_session` (lines 151-169): mark COMPLETED, refresh
`updated_at`, remove the live file, save (now to the archive), and drop the
session from the in-memory active dict. -/
def complete_session (st : SessionManagerState) (sid : String) (now : String) :
    Bool × SessionManagerState :=
  match st.active_sessions sid with
  | none => (false, st)
  | some session =>
    let s := { session with status := SessionStatus.completed, updated_at := now }
    let st1 := { st with live_store := st.live_store.erase sid }
    let st2 := save_session st1 s
    (true, { st2 with active_sessions := st2.active_sessions.erase sid })

/-- Lines 106-110: a PENDING session becomes ACTIVE on its first turn. -/
def activate (session : DebateSession) : DebateSession :=
  if session.status = SessionStatus.pending then
    { session with status := SessionStatus.active }
  else session

/-- Lines 112-123: build the new `DiscussionTurn` (with
`turn_number = current_turn + 1`), append it, increment `current_turn`,
refresh `updated_at`. -/
def appendTurn (session : DebateSession) (aid aname msg : String) (rt : Rat)
    (now : String) : DebateSession :=
  { session with
    turn_history := session.turn_history ++
      [{ turn_number := session.current_turn + 1, agent_id := aid,
         agent_name := aname, message := msg, timestamp := now,
         response_time := rt, metadata := [] }],
    current_turn := session.current_turn + 1,
    updated_at := now }

/-- `add_turn` (lines 98-131). Returns the success boolean together with
the new manager state. In Python the session object stored in
`active_sessions` is mutated in place; here each in-place mutation that is
visible to a later lookup is reflected by updating the map before that
lookup happens (the only such lookup is the one inside `complete_session`). -/
def add_turn (st : SessionManagerState) (sid aid aname msg : String) (rt : Rat)
    (now : String) : Bool × SessionManagerState :=
  match st.active_sessions sid with
  | none => (false, st)
  | some session =>
    if session.status ≠ SessionStatus.active ∧ session.status ≠ SessionStatus.pending then
      (false, st)
    else
      let s2 := appendTurn (activate session) aid aname msg rt now
      if s2.max_turns ≤ s2.current_turn then
        let s3 := { s2 with status := SessionStatus.completed }
        let st1 := { st with active_sessions := st.active_sessions.set sid s3 }
        let st2 := (complete_session st1 sid now).2
        (true, save_session st2 s3)
      else
        let st1 := { st with active_sessions := st.active_sessions.set sid s2 }
        (true, save_session st1 s2)

/-- Argument bundle for one `add_turn` call addressed to a fixed session. -/
structure TurnArgs : Type where
  agent_id : String
  agent_name : String
  message : String
  response_time : Rat
  now : String

/-- Argument bundle for one `add_turn` call, session id included. -/
structure AddTurnCall : Type where
  session_id : String
  agent_id : String
  agent_name : String
  message : String
  response_time : Rat
  now : String

/-- Run a sequence of `add_turn` calls (possibly addressed to several
sessions), keeping only the final state. -/
def runCalls (st : SessionManagerState) (cs : List AddTurnCall) : SessionManagerState :=
  cs.foldl
    (fun st c =>
      (add_turn st c.session_id c.agent_id c.agent_name c.message
        c.response_time c.now).2)
    st

/-- Run a sequence of `add_turn` calls on one session, collecting the
returned booleans in order together with the final state. -/
def addTurnSeqR : SessionManagerState → String → List TurnArgs →
    List Bool × SessionManagerState
  | st, _, [] => ([], st)
  | st, sid, a :: rest =>
    let r := add_turn st sid a.agent_id a.agent_name a.message a.response_time a.now
    let rr := addTurnSeqR r.2 sid rest
    (r.1 :: rr.1, rr.2)

/-! ## Retry wrapper (`error_handler.py` lines 24-124) -/

/-- A raised Python exception, abstracted to its type name and message.
Whether an `except exceptions as e` clause catches it depends only on the
type component. -/
structure PyExc : Type where
  ty : String
  msg : String
deriving DecidableEq

/-- `RetryConfig` (`error_handler.py` lines 29-43). -/
structure RetryConfig : Type where
  max_attempts : Nat
  initial_delay : Rat
  max_delay : Rat
  exponential_base : Rat
  jitter : Bool

/-- `calculate_backoff_delay` (lines 46-58). `r` stands for the value of
`random.random()`, a fresh uniform sample in `[0, 1)`; it is only read when
`config.jitter` is set. -/
def calculate_backoff_delay (attempt : Nat) (config : RetryConfig) (r : Rat) : Rat :=
  let delay := min (config.initial_delay * config.exponential_base ^ (attempt - 1))
    config.max_delay
  if config.jitter then delay * (1/2 + r * (1/2)) else delay

/-- Outcome of one run of the wrapped function in `retry_with_backoff`:
a returned value, a propagated non-listed exception, the terminal
`RetryError` raised `from last_exception` once attempts are exhausted, or
the `RetryError("Unexpected retry loop exit")` of line 116 (reachable only
when `max_attempts < 1`). -/
inductive RetryResult (α : Type) : Type where
  | ok : α → RetryResult α
  | exn : PyExc → RetryResult α
  | exhausted : PyExc → RetryResult α
  | unexpectedExit : RetryResult α
deriving DecidableEq

/-- The `for attempt in range(1, max_attempts + 1)` loop of
`retry_with_backoff` (lines 85-116), starting at attempt number `attempt`
with `remaining` loop iterations left. The wrapped function `f` is given
the attempt number (so one Lean function can describe a stateful Python
callable whose behaviour varies between calls); `listed e.ty` models
`isinstance(e, exceptions)`. The second component counts how many times
`f` was invoked. The backoff sleep between attempts is a pure side effect
and does not appear. -/
def retryGo {α : Type} (listed : String → Bool) (maxA : Nat)
    (f : Nat → Except PyExc α) : Nat → Nat → RetryResult α × Nat
  | _, 0 => (RetryResult.unexpectedExit, 0)
  | attempt, remaining + 1 =>
    match f attempt with
    | Except.ok v => (RetryResult.ok v, 1)
    | Except.error e =>
      if listed e.ty then
        if attempt = maxA then (RetryResult.exhausted e, 1)
        else
          let p := retryGo listed maxA f (attempt + 1) remaining
          (p.1, p.2 + 1)
      else (RetryResult.exn e, 1)

/-- `retry_with_backoff` applied to a function: run the attempt loop from
attempt 1. -/
def retry_with_backoff {α : Type} (listed : String → Bool) (maxA : Nat)
    (f : Nat → Except PyExc α) : RetryResult α × Nat :=
  retryGo listed maxA f 1 maxA

/-! ## Quality scoring engine (`quality_calculator.py`) -/

/-- The modelled fragment of Python's `\w` (regex word character, Unicode
mode): ASCII alphanumerics and underscore, plus the hiragana, katakana and
CJK-ideograph ranges the calculator's two working languages use. -/
def isWordChar (c : Char) : Bool :=
  c.isAlphanum || c = '_' ||
  (0x3041 ≤ c.val && c.val ≤ 0x3096) ||
  (0x30A1 ≤ c.val && c.val ≤ 0x30FA) ||
  (0x4E00 ≤ c.val && c.val ≤ 0x9FFF)

/-- Maximal runs of word characters: `re.findall(r'\w+', text)`. The
accumulator carries the current run, reversed. -/
def wordRuns (acc : List Char) : List Char → List (List Char)
  | [] => if acc.isEmpty then [] else [acc.reverse]
  | c :: rest =>
    if isWordChar c then wordRuns (c :: acc) rest
    else if acc.isEmpty then wordRuns [] rest
    else acc.reverse :: wordRuns [] rest

/-- The fixed stop-word list of `_extract_keywords` (lines 186-188). -/
def common_words : List String :=
  ["は", "が", "を", "に", "で", "と", "の", "から", "まで",
   "the", "is", "are", "was", "were", "been", "be", "have", "has", "had",
   "do", "does", "did", "will", "would", "should", "could", "may", "might"]

/-- `QualityCalculator._extract_keywords` (lines 183-194): lowercase,
split into `\w+` tokens, keep tokens longer than 2 characters that are not
stop words. -/
def extract_keywords (text : String) : List String :=
  let words := (wordRuns [] (text.data.map Char.toLower)).map List.asString
  words.filter (fun w => 2 < w.length && !(common_words.contains w))

/-- Lines 104-109 of `_calculate_coherence`: the keyword set accumulated
over the last 3 turns of the history (`history[-3:]`). -/
def historyKeywords (history : List DiscussionTurn) : Finset String :=
  (history.drop (history.length - 3)).foldl
    (fun acc t => acc ∪ (extract_keywords t.message).toFinset) ∅

/-- `QualityCalculator._calculate_coherence` (lines 97-118). -/
def calculate_coherence (turn : DiscussionTurn) (history : List DiscussionTurn) : Rat :=
  if history = [] then 1
  else
    let keywords_from_history := historyKeywords history
    let current_words := (extract_keywords turn.message).toFinset
    let common := keywords_from_history ∩ current_words
    if keywords_from_history = ∅ then 4/5
    else min (((common.card : Rat) / (keywords_from_history.card : Rat)) * 2) 1

/-- Sum of a list of rationals. -/
def listSum (l : List Rat) : Rat := l.foldr (· + ·) 0

/-- `statistics.mean`. -/
def listMean (l : List Rat) : Rat := listSum l / (l.length : Rat)

/-- `statistics.variance`: the sample variance with denominator `n - 1`
(the `statistics` module computes it exactly over fractions). Only ever
used here on lists of length ≥ 3. -/
def sampleVariance (l : List Rat) : Rat :=
  listSum (l.map (fun x => (x - listMean l) ^ 2)) / ((l.length : Rat) - 1)

/-- `QualityCalculator._calculate_authenticity` (lines 157-181). The `turn`
argument is present in the source signature but unused by the body. -/
def calculate_authenticity (_turn : DiscussionTurn) (session : DebateSession) : Rat :=
  let response_times :=
    (session.turn_history.filter (fun t => 0 < t.response_time)).map
      (fun t => t.response_time)
  if response_times.length < 3 then 4/5
  else
    let variance := sampleVariance response_times
    if variance < 3/10 then 3/10
    else if 5 < variance then 7/10
    else 1

/-! ### Spec-side restatements (from `spec.md` §4.3), for the refinement
claims about coherence and authenticity. -/

/-- The coherence score as §4.3 words it: 1.0 for the first turn (empty
history); otherwise, with `H` the keywords of the last 3 preceding turns
and `C` the keywords of the current turn, `min(2·|H ∩ C| / |H|, 1.0)` when
`H` is non-empty and 0.8 when `H` is empty. -/
def coherence_spec (turn : DiscussionTurn) (history : List DiscussionTurn) : Rat :=
  if history.length = 0 then 1
  else
    let H := historyKeywords history
    let C := (extract_keywords turn.message).toFinset
    if H = ∅ then 4/5
    else min (2 * ((H ∩ C).card : Rat) / (H.card : Rat)) 1

/-! ## Checkpoint subsystem (`checkpoint_manager.py`) -/

/-- `CheckpointType` enumeration (`checkpoint_manager.py` line 19). -/
inductive CheckpointType : Type where
  | automatic
  | manual
  | scheduled
  | emergency
deriving DecidableEq

/-- String value of a `CheckpointType` member (its `.value`). -/
def CheckpointType.value : CheckpointType → String
  | .automatic => "automatic"
  | .manual => "manual"
  | .scheduled => "scheduled"
  | .emergency => "emergency"

/-- `CheckpointType(s)` enum construction: succeeds exactly on the four
member values. -/
def CheckpointType.ofValue : String → Option CheckpointType
  | "automatic" => some .automatic
  | "manual" => some .manual
  | "scheduled" => some .scheduled
  | "emergency" => some .emergency
  | _ => none

/-- `AgentState` dataclass (`checkpoint_manager.py` line 27). -/
structure AgentState : Type where
  agent_id : String
  last_response : String
  response_time : Rat
  turn_count : Nat
  personality_params : List (String × String)
  conversation_summary : String
deriving DecidableEq

/-- `SessionCheckpoint` dataclass (`checkpoint_manager.py` line 38). The
`timestamp` is modelled by its ISO-format string; `turn_number` is an `Int`
because `validate` checks its sign. -/
structure SessionCheckpoint : Type where
  checkpoint_id : String
  session_id : String
  timestamp : String
  turn_number : Int
  checkpoint_type : CheckpointType
  status : SessionStatus
  participants_state : List (String × AgentState)
  quality_snapshot : Option (List (String × Rat))
  metadata : List (String × String)
deriving DecidableEq

/-- `SessionCheckpoint.validate` (lines 55-69): `not all([checkpoint_id,
session_id, timestamp])` is "some of the three is empty/falsy"; then the
`participants_state` dict must be non-empty and `turn_number` non-negative. -/
def SessionCheckpoint.validate (c : SessionCheckpoint) : Bool :=
  if c.checkpoint_id = "" ∨ c.session_id = "" ∨ c.timestamp = "" then false
  else if c.participants_state = [] then false
  else if c.turn_number < 0 then false
  else true

/-- The dictionary form of an `AgentState` produced by `dataclasses.asdict`
(all fields are already primitive, so it has the same shape). -/
structure AgentStateDict : Type where
  agent_id : String
  last_response : String
  response_time : Rat
  turn_count : Nat
  personality_params : List (String × String)
  conversation_summary : String
deriving DecidableEq

/-- `asdict(state)` for an `AgentState`. -/
def AgentState.asdict (s : AgentState) : AgentStateDict :=
  { agent_id := s.agent_id, last_response := s.last_response,
    response_time := s.response_time, turn_count := s.turn_count,
    personality_params := s.personality_params,
    conversation_summary := s.conversation_summary }

/-- `AgentState(**state_data)` from a dictionary. -/
def AgentStateDict.toState (d : AgentStateDict) : AgentState :=
  { agent_id := d.agent_id, last_response := d.last_response,
    response_time := d.response_time, turn_count := d.turn_count,
    personality_params := d.personality_params,
    conversation_summary := d.conversation_summary }

/-- The dictionary produced by `SessionCheckpoint.to_dict`: timestamp as
its ISO string, the two enums as their string values, agent states as
dictionaries. -/
structure CheckpointDict : Type where
  checkpoint_id : String
  session_id : String
  timestamp : String
  turn_number : Int
  checkpoint_type : String
  status : String
  participants_state : List (String × AgentStateDict)
  quality_snapshot : Option (List (String × Rat))
  metadata : List (String × String)
deriving DecidableEq

/-- `SessionCheckpoint.to_dict` (lines 71-84). `timestamp.isoformat()` is
the identity on our string model of datetimes. -/
def SessionCheckpoint.to_dict (c : SessionCheckpoint) : CheckpointDict :=
  { checkpoint_id := c.checkpoint_id, session_id := c.session_id,
    timestamp := c.timestamp, turn_number := c.turn_number,
    checkpoint_type := c.checkpoint_type.value, status := c.status.value,
    participants_state := c.participants_state.map
      (fun p => (p.1, AgentState.asdict p.2)),
    quality_snapshot := c.quality_snapshot, metadata := c.metadata }

/-- `SessionCheckpoint.from_dict` (lines 86-102). The enum constructions
`CheckpointType(...)` and `SessionStatus(...)` raise `ValueError` on
unknown strings; `datetime.fromisoformat` is the identity on our string
model of datetimes. -/
def SessionCheckpoint.from_dict (d : CheckpointDict) :
    Except String SessionCheckpoint :=
  match CheckpointType.ofValue d.checkpoint_type with
  | none => Except.error "invalid checkpoint_type"
  | some ty =>
    match SessionStatus.ofValue d.status with
    | none => Except.error "invalid status"
    | some st =>
      Except.ok
        { checkpoint_id := d.checkpoint_id, session_id := d.session_id,
          timestamp := d.timestamp, turn_number := d.turn_number,
          checkpoint_type := ty, status := st,
          participants_state := d.participants_state.map
            (fun p => (p.1, AgentStateDict.toState p.2)),
          quality_snapshot := d.quality_snapshot, metadata := d.metadata }

/-- Python slicing `s[:n]` on a string (by code points). -/
def strTake (s : String) (n : Nat) : String := List.asString (s.data.take n)

/-- `CheckpointManager._generate_summary` (lines 300-312). -/
def generate_summary : List DiscussionTurn → String
  | [] => "No conversation yet"
  | [t] => strTake t.message 100 ++ "..."
  | t :: u :: rest =>
    "Started: " ++ strTake t.message 50 ++ "... Latest: " ++
      strTake (List.getLastD (u :: rest) u).message 50 ++ "..."

/-- Lines 137-173 of `create_checkpoint`: the `AgentState` built for one
participant from the session's turns grouped by agent (grouping a list by
a key, order preserved, restricted to one agent is a filter). -/
def buildAgentState (history : List DiscussionTurn) (p : Participant) : AgentState :=
  let turns := history.filter (fun t => t.agent_id = p.id)
  let last_pair : String × Rat :=
    match turns.getLast? with
    | some last_turn => (last_turn.message, last_turn.response_time)
    | none => ("", 0)
  { agent_id := p.id, last_response := last_pair.1,
    response_time := last_pair.2, turn_count := turns.length,
    personality_params := [("name", p.name), ("role", p.role.getD "unknown")],
    conversation_summary := generate_summary turns }

/-- The checkpoint files on disk, keyed by type partition (subdirectory)
and filename. -/
def CheckpointStore : Type := CheckpointType → String → Option SessionCheckpoint

def CheckpointStore.empty : CheckpointStore := fun _ _ => none

/-- The filename `f"{checkpoint.session_id}_{checkpoint.checkpoint_id}.json"`
used by `save_checkpoint` (line 203). -/
def checkpointFilename (c : SessionCheckpoint) : String :=
  c.session_id ++ "_" ++ c.checkpoint_id ++ ".json"

/-- `CheckpointManager.save_checkpoint` (lines 197-208): write the
checkpoint into its type partition under its filename. -/
def save_checkpoint (store : CheckpointStore) (c : SessionCheckpoint) :
    CheckpointStore :=
  fun ty fname =>
    if ty = c.checkpoint_type ∧ fname = checkpointFilename c then some c
    else store ty fname

/-- `CheckpointManager.create_checkpoint` (lines 125-195). `freshId` stands
for the fresh `uuid.uuid4()` string and `now` for `datetime.now()`. An
invalid checkpoint raises `ValueError("Invalid checkpoint data")` before
anything is saved. -/
def create_checkpoint (store : CheckpointStore) (session : DebateSession)
    (checkpoint_type : CheckpointType)
    (quality_snapshot : Option (List (String × Rat)))
    (metadata : Option (List (String × String)))
    (freshId now : String) :
    Except String (SessionCheckpoint × CheckpointStore) :=
  let participants_state := session.participants.map
    (fun p => (p.id, buildAgentState session.turn_history p))
  let checkpoint : SessionCheckpoint :=
    { checkpoint_id := freshId, session_id := session.session_id,
      timestamp := now, turn_number := (session.current_turn : Int),
      checkpoint_type := checkpoint_type, status := session.status,
      participants_state := participants_state,
      quality_snapshot := quality_snapshot, metadata := metadata.getD [] }
  if checkpoint.validate = false then Except.error "Invalid checkpoint data"
  else Except.ok (checkpoint, save_checkpoint store checkpoint)

/-! ## Invariants (from spec.md §3) -/

/-- The §3 session invariant: `current_turn == len(turn_history)` and the
appended turns carry `turn_number` values `1, 2, 3, …` with no gaps. -/
def WellNumbered (s : DebateSession) : Prop :=
  s.current_turn = s.turn_history.length ∧
  s.turn_history.map (fun t => t.turn_number) = List.range' 1 s.turn_history.length

/-- Manager-state invariant tracked for one session id: the in-memory dict
keys every session by its own id, and the record stored under `sid` — in
memory, in the live store, or in the archive — is well numbered. -/
def SessionInvAt (st : SessionManagerState) (sid : String) : Prop :=
  (∀ k s, st.active_sessions k = some s → s.session_id = k) ∧
  (∀ s, st.active_sessions sid = some s → WellNumbered s) ∧
  (∀ s, st.live_store sid = some s → WellNumbered s) ∧
  (∀ s, st.archive_store sid = some s → WellNumbered s)

/-! # Theorems -/

/-! ## Store lemmas -/

theorem StrMap.get_set {α : Type} (m : StrMap α) (k : String) (v : α)
    (k' : String) : m.set k v k' = if k' = k then some v else m k' := rfl

theorem StrMap.get_erase {α : Type} (m : StrMap α) (k k' : String) :
    m.erase k k' = if k' = k then none else m k' := rfl

@[simp] theorem StrMap.get_set_self {α : Type} (m : StrMap α) (k : String)
    (v : α) : m.set k v k = some v := by
  simp [StrMap.set]

theorem StrMap.get_set_ne {α : Type} (m : StrMap α) (k : String) (v : α)
    {k' : String} (h : k' ≠ k) : m.set k v k' = m k' := by
  simp [StrMap.set, h]

@[simp] theorem StrMap.get_erase_self {α : Type} (m : StrMap α) (k : String) :
    m.erase k k = none := by
  simp [StrMap.erase]

theorem StrMap.get_erase_ne {α : Type} (m : StrMap α) (k : String)
    {k' : String} (h : k' ≠ k) : m.erase k k' = m k' := by
  simp [StrMap.erase, h]

/-! ## Projection lemmas for the session operations -/

@[simp] theorem activate_session_id (s : DebateSession) :
    (activate s).session_id = s.session_id := by
  unfold activate; split <;> rfl

@[simp] theorem activate_current_turn (s : DebateSession) :
    (activate s).current_turn = s.current_turn := by
  unfold activate; split <;> rfl

@[simp] theorem activate_max_turns (s : DebateSession) :
    (activate s).max_turns = s.max_turns := by
  unfold activate; split <;> rfl

@[simp] theorem activate_turn_history (s : DebateSession) :
    (activate s).turn_history = s.turn_history := by
  unfold activate; split <;> rfl

theorem activate_status_of_ok {s : DebateSession}
    (h : s.status = SessionStatus.pending ∨ s.status = SessionStatus.active) :
    (activate s).status = SessionStatus.active := by
  unfold activate
  rcases h with h | h <;> simp [h]

@[simp] theorem appendTurn_session_id (s : DebateSession) (aid aname msg : String)
    (rt : Rat) (now : String) :
    (appendTurn s aid aname msg rt now).session_id = s.session_id := rfl

@[simp] theorem appendTurn_current_turn (s : DebateSession) (aid aname msg : String)
    (rt : Rat) (now : String) :
    (appendTurn s aid aname msg rt now).current_turn = s.current_turn + 1 := rfl

@[simp] theorem appendTurn_max_turns (s : DebateSession) (aid aname msg : String)
    (rt : Rat) (now : String) :
    (appendTurn s aid aname msg rt now).max_turns = s.max_turns := rfl

@[simp] theorem appendTurn_status (s : DebateSession) (aid aname msg : String)
    (rt : Rat) (now : String) :
    (appendTurn s aid aname msg rt now).status = s.status := rfl

/-! ## C10: failing `add_turn` calls leave the whole state unchanged -/

/-- C10: whenever `add_turn` returns `false` (unknown session id, or a
status that is neither PENDING nor ACTIVE), the manager state — the session
with its `turn_history`, `current_turn`, `status` and `updated_at`, and both
on-disk stores — is left exactly as it was. -/
theorem add_turn_failure_frame (st : SessionManagerState) (sid aid aname msg : String)
    (rt : Rat) (now : String)
    (h : (add_turn st sid aid aname msg rt now).1 = false) :
    (add_turn st sid aid aname msg rt now).2 = st := by
  unfold add_turn at h ⊢
  cases hac : st.active_sessions sid with
  | none => rfl
  | some session =>
    rw [hac] at h
    simp only at h ⊢
    split_ifs at h ⊢ with h1 h2
    rfl

/-- Witness for C10: on the empty manager state every `add_turn` call
fails, and the state is returned untouched. -/
theorem add_turn_failure_frame_witness :
    (add_turn SessionManagerState.empty "s1" "a" "A" "hello" 0 "t0").1 = false ∧
    (add_turn SessionManagerState.empty "s1" "a" "A" "hello" 0 "t0").2 =
      SessionManagerState.empty :=
  ⟨rfl, add_turn_failure_frame SessionManagerState.empty "s1" "a" "A" "hello" 0 "t0" rfl⟩

/-! ## C3: retry exhaustion and non-listed passthrough -/

/-- The attempt loop on an operation that raises a listed exception at
every call: every remaining iteration runs, and the loop ends by raising
`RetryError` wrapping the exception of the last attempt. -/
theorem retryGo_always_transient {α : Type} (listed : String → Bool) (k : Nat)
    (f : Nat → Except PyExc α) (e : Nat → PyExc)
    (hf : ∀ n, f n = Except.error (e n)) (hl : ∀ n, listed (e n).ty = true) :
    ∀ remaining attempt, attempt + remaining = k + 1 → 1 ≤ remaining →
      retryGo listed k f attempt remaining =
        (RetryResult.exhausted (e k), remaining) := by
  intro remaining
  induction remaining with
  | zero => intro attempt _ h; omega
  | succ r ih =>
    intro attempt hsum _
    simp only [retryGo]
    rw [hf attempt]
    simp only [hl attempt, if_true]
    by_cases hk : attempt = k
    · subst hk
      have hr0 : r = 0 := by omega
      subst hr0
      simp
    · rw [if_neg hk]
      have hr : 1 ≤ r := by omega
      rw [ih (attempt + 1) (by omega) hr]

/-- C3: with `max_attempts = k ≥ 1`, an operation raising a listed
(transient) exception on every call is invoked exactly `k` times and the
wrapper ends with `RetryError` wrapping the exception of attempt `k`; an
operation whose first raised exception has a type outside the listed set
is invoked exactly once and that exception propagates unchanged. -/
theorem retry_exhaustion_and_passthrough {α : Type} (k : Nat)
    (listed : String → Bool) (f g : Nat → Except PyExc α) (e : Nat → PyExc)
    (e1 : PyExc) (hk : 1 ≤ k)
    (hf : ∀ n, f n = Except.error (e n)) (hl : ∀ n, listed (e n).ty = true)
    (hg : g 1 = Except.error e1) (hn : listed e1.ty = false) :
    retry_with_backoff listed k f = (RetryResult.exhausted (e k), k) ∧
    retry_with_backoff listed k g = (RetryResult.exn e1, 1) := by
  constructor
  · exact retryGo_always_transient listed k f e hf hl k 1 (by omega) hk
  · unfold retry_with_backoff
    obtain ⟨k', rfl⟩ : ∃ k', k = k' + 1 := ⟨k - 1, by omega⟩
    simp only [retryGo]
    rw [hg]
    simp [hn]

/-- Witness for C3 at `max_attempts = 2`, with `ConnectionError` listed as
transient: the always-failing operation is called twice and exhausted; a
`ValueError` passes through on the first call. -/
theorem retry_exhaustion_and_passthrough_witness :
    retry_with_backoff (fun t => t == "ConnectionError") 2
        (fun _ => Except.error (⟨"ConnectionError", "boom"⟩ : PyExc)) =
      ((RetryResult.exhausted (⟨"ConnectionError", "boom"⟩ : PyExc) :
        RetryResult Nat), 2) ∧
    retry_with_backoff (fun t => t == "ConnectionError") 2
        (fun _ => Except.error (⟨"ValueError", "bad"⟩ : PyExc)) =
      ((RetryResult.exn (⟨"ValueError", "bad"⟩ : PyExc) : RetryResult Nat), 1) :=
  retry_exhaustion_and_passthrough 2 (fun t => t == "ConnectionError")
    (fun _ => Except.error ⟨"ConnectionError", "boom"⟩)
    (fun _ => Except.error ⟨"ValueError", "bad"⟩)
    (fun _ => ⟨"ConnectionError", "boom"⟩) ⟨"ValueError", "bad"⟩
    (by decide) (fun _ => rfl) (fun _ => rfl) rfl rfl

/-! ## C4: backoff delay bound and monotonicity -/

/-- C4: for a `RetryConfig` with non-negative delays and
`exponential_base ≥ 1`, and any jitter sample `r ∈ [0, 1)`, the computed
delay for attempt `n` never exceeds `max_delay`; with jitter disabled it
equals `min(initial_delay · exponential_base^(n-1), max_delay)`, the delay
sequence is non-decreasing in the attempt number, and it plateaus at
`max_delay` once the exponential term reaches it. -/
theorem backoff_bound_and_monotone (config : RetryConfig) (r : Rat) (n : Nat)
    (h0 : 0 ≤ config.initial_delay) (h1 : 0 ≤ config.max_delay)
    (hb : 1 ≤ config.exponential_base) (hr0 : 0 ≤ r) (hr1 : r < 1) :
    calculate_backoff_delay n config r ≤ config.max_delay ∧
    (config.jitter = false →
      calculate_backoff_delay n config r =
        min (config.initial_delay * config.exponential_base ^ (n - 1))
          config.max_delay ∧
      (∀ m, n ≤ m →
        calculate_backoff_delay n config r ≤ calculate_backoff_delay m config r) ∧
      (config.max_delay ≤ config.initial_delay * config.exponential_base ^ (n - 1) →
        calculate_backoff_delay n config r = config.max_delay)) := by
  have hbase0 : (0:Rat) ≤ config.exponential_base := le_trans zero_le_one hb
  have hx : ∀ j : Nat, (0:Rat) ≤ config.initial_delay * config.exponential_base ^ j :=
    fun j => mul_nonneg h0 (pow_nonneg hbase0 j)
  constructor
  · unfold calculate_backoff_delay
    by_cases hj : config.jitter
    · simp only [hj, if_true]
      have hd0 : (0:Rat) ≤ min (config.initial_delay * config.exponential_base ^ (n - 1))
          config.max_delay := le_min (hx _) h1
      have hf1 : 1/2 + r * (1/2) ≤ (1:Rat) := by linarith
      calc min (config.initial_delay * config.exponential_base ^ (n - 1))
            config.max_delay * (1/2 + r * (1/2))
          ≤ min (config.initial_delay * config.exponential_base ^ (n - 1))
            config.max_delay * 1 := mul_le_mul_of_nonneg_left hf1 hd0
        _ = min (config.initial_delay * config.exponential_base ^ (n - 1))
            config.max_delay := mul_one _
        _ ≤ config.max_delay := min_le_right _ _
    · simp only [hj, if_false, Bool.false_eq_true]
      exact min_le_right _ _
  · intro hj
    refine ⟨by simp [calculate_backoff_delay, hj], ?_, ?_⟩
    · intro m hm
      simp only [calculate_backoff_delay, hj, Bool.false_eq_true, if_false]
      refine min_le_min ?_ le_rfl
      have hpow : config.exponential_base ^ (n - 1) ≤ config.exponential_base ^ (m - 1) :=
        pow_le_pow_right₀ hb (Nat.sub_le_sub_right hm 1)
      exact mul_le_mul_of_nonneg_left hpow h0
    · intro hge
      simp only [calculate_backoff_delay, hj, Bool.false_eq_true, if_false]
      exact min_eq_right hge

/-- Witness for C4 at the `handle_api_timeout` configuration
(`initial_delay = 2, max_delay = 30, base = 2`) with jitter off: the delay
of attempt 3 is bounded by `max_delay` and is at most the delay of
attempt 10. -/
theorem backoff_bound_and_monotone_witness :
    calculate_backoff_delay 3 ⟨3, 2, 30, 2, false⟩ 0 ≤ (30:Rat) ∧
    calculate_backoff_delay 3 ⟨3, 2, 30, 2, false⟩ 0 ≤
      calculate_backoff_delay 10 ⟨3, 2, 30, 2, false⟩ 0 :=
  ⟨(backoff_bound_and_monotone ⟨3, 2, 30, 2, false⟩ 0 3 (by decide) (by decide)
      (by decide) (by decide) (by decide)).1,
   ((backoff_bound_and_monotone ⟨3, 2, 30, 2, false⟩ 0 3 (by decide) (by decide)
      (by decide) (by decide) (by decide)).2 rfl).2.1 10 (by decide)⟩

/-! ## C5: authenticity thresholds -/

/-- C5: the authenticity score of any turn is 0.8 when fewer than 3 turns
of the session carry a positive recorded `response_time`; otherwise, with
`v` the sample variance of all recorded positive response times, it is 0.3
when `v < 0.3`, 0.7 when `v > 5.0`, and 1.0 when `0.3 ≤ v ≤ 5.0`. -/
theorem authenticity_thresholds (turn : DiscussionTurn) (session : DebateSession) :
    ((session.turn_history.filter (fun t => 0 < t.response_time)).length < 3 →
      calculate_authenticity turn session = 4/5) ∧
    (3 ≤ (session.turn_history.filter (fun t => 0 < t.response_time)).length →
      (sampleVariance ((session.turn_history.filter (fun t => 0 < t.response_time)).map
          (fun t => t.response_time)) < 3/10 →
        calculate_authenticity turn session = 3/10) ∧
      (5 < sampleVariance ((session.turn_history.filter (fun t => 0 < t.response_time)).map
          (fun t => t.response_time)) →
        calculate_authenticity turn session = 7/10) ∧
      (3/10 ≤ sampleVariance ((session.turn_history.filter (fun t => 0 < t.response_time)).map
          (fun t => t.response_time)) →
        sampleVariance ((session.turn_history.filter (fun t => 0 < t.response_time)).map
          (fun t => t.response_time)) ≤ 5 →
        calculate_authenticity turn session = 1)) := by
  refine ⟨?_, ?_⟩
  · intro h
    simp only [calculate_authenticity, List.length_map]
    rw [if_pos h]
  · intro h
    have hlen : ¬ ((session.turn_history.filter (fun t => 0 < t.response_time)).map
        (fun t => t.response_time)).length < 3 := by
      simpa using not_lt.mpr h
    refine ⟨?_, ?_, ?_⟩
    · intro hv
      simp only [calculate_authenticity]
      rw [if_neg hlen, if_pos hv]
    · intro hv
      have hv' : ¬ sampleVariance ((session.turn_history.filter
          (fun t => 0 < t.response_time)).map (fun t => t.response_time)) < 3/10 := by
        have : (3:Rat)/10 < 5 := by norm_num
        exact not_lt.mpr (le_of_lt (lt_trans this hv))
      simp only [calculate_authenticity]
      rw [if_neg hlen, if_neg hv', if_pos hv]
    · intro hv1 hv2
      simp only [calculate_authenticity]
      rw [if_neg hlen, if_neg (not_lt.mpr hv1), if_neg (not_lt.mpr hv2)]

/-- Witness for C5: a session whose three recorded response times are
1, 2, 3 seconds has sample variance 1, inside `[0.3, 5.0]`, so every turn
scores authenticity 1.0. -/
theorem authenticity_thresholds_witness :
    calculate_authenticity
      { turn_number := 1, agent_id := "a", agent_name := "A", message := "m",
        timestamp := "t", response_time := 1, metadata := [] }
      { session_id := "s", topic := "T", participants := [],
        status := SessionStatus.active, created_at := "t0", updated_at := "t3",
        turn_history :=
          [{ turn_number := 1, agent_id := "a", agent_name := "A", message := "m1",
             timestamp := "t1", response_time := 1, metadata := [] },
           { turn_number := 2, agent_id := "b", agent_name := "B", message := "m2",
             timestamp := "t2", response_time := 2, metadata := [] },
           { turn_number := 3, agent_id := "a", agent_name := "A", message := "m3",
             timestamp := "t3", response_time := 3, metadata := [] }],
        current_turn := 3, max_turns := 10, metadata := [] } = 1 :=
  ((authenticity_thresholds _ _).2 (by decide)).2.2
    (by norm_num [List.filter, sampleVariance, listMean, listSum])
    (by norm_num [List.filter, sampleVariance, listMean, listSum])

/-! ## C6: coherence agrees with the spec formula -/

/-- C6: the coherence score is exactly the §4.3 formula — 1.0 for the
first turn (empty preceding history) regardless of content; otherwise,
with `H` the keywords of the last 3 preceding turns and `C` those of the
current turn, `min(2·|H ∩ C| / |H|, 1.0)` when `H` is non-empty and 0.8
when `H` is empty. -/
theorem coherence_matches_spec (turn : DiscussionTurn) (history : List DiscussionTurn) :
    calculate_coherence turn history = coherence_spec turn history := by
  by_cases h : history = []
  · simp [calculate_coherence, coherence_spec, h]
  · have hlen : ¬ history.length = 0 := by simpa using h
    by_cases hH : historyKeywords history = ∅
    · simp only [calculate_coherence, coherence_spec, if_neg h, if_neg hlen, if_pos hH]
    · simp only [calculate_coherence, coherence_spec, if_neg h, if_neg hlen, if_neg hH]
      congr 1
      ring

/-! ## C9: conversation summary at checkpoint creation -/

/-- C9 fails as stated: for a single-turn agent the summary is not the
first 100 characters of the message verbatim — the code appends an
ellipsis. With message `"hi"` the summary is `"hi..."`, not `"hi"`. -/
theorem summary_verbatim_counterexample :
    generate_summary
      [{ turn_number := 1, agent_id := "a", agent_name := "A", message := "hi",
         timestamp := "t", response_time := 0, metadata := [] }] ≠
      strTake "hi" 100 := by
  decide

/-- C9 (amended): the single-turn summary is the first 100 characters of
the message followed by an ellipsis; with two or more turns it is the
two-part extractive form built from the first 50 characters of the first
message and the first 50 characters of the last message, each followed by
an ellipsis. -/
theorem summary_extractive_shape (t : DiscussionTurn) (rest : List DiscussionTurn) :
    generate_summary [t] = strTake t.message 100 ++ "..." ∧
    (rest ≠ [] →
      generate_summary (t :: rest) =
        "Started: " ++ strTake t.message 50 ++ "... Latest: " ++
          strTake (rest.getLastD t).message 50 ++ "...") := by
  refine ⟨rfl, ?_⟩
  intro hne
  cases rest with
  | nil => exact absurd rfl hne
  | cons u rest' =>
    have e : (u :: rest').getLastD t = (u :: rest').getLastD u := by
      rw [List.getLastD_cons, List.getLastD_cons]
    rw [e]
    rfl

/-- Witness for C9 (amended) on a two-turn agent history. -/
theorem summary_extractive_shape_witness :
    generate_summary
      [{ turn_number := 1, agent_id := "a", agent_name := "A", message := "alpha",
         timestamp := "t1", response_time := 0, metadata := [] }] =
      strTake "alpha" 100 ++ "..." ∧
    generate_summary
      [{ turn_number := 1, agent_id := "a", agent_name := "A", message := "alpha",
         timestamp := "t1", response_time := 0, metadata := [] },
       { turn_number := 2, agent_id := "a", agent_name := "A", message := "beta",
         timestamp := "t2", response_time := 0, metadata := [] }] =
      "Started: " ++ strTake "alpha" 50 ++ "... Latest: " ++
        strTake "beta" 50 ++ "..." :=
  ⟨(summary_extractive_shape
      { turn_number := 1, agent_id := "a", agent_name := "A", message := "alpha",
        timestamp := "t1", response_time := 0, metadata := [] } []).1,
   (summary_extractive_shape
      { turn_number := 1, agent_id := "a", agent_name := "A", message := "alpha",
        timestamp := "t1", response_time := 0, metadata := [] }
      [{ turn_number := 2, agent_id := "a", agent_name := "A", message := "beta",
         timestamp := "t2", response_time := 0, metadata := [] }]).2 (by decide)⟩

/-! ## C7: checkpoint validation guards creation -/

/-- A checkpoint whose `participants_state` is empty never validates. -/
theorem validate_empty_participants (c : SessionCheckpoint)
    (h : c.participants_state = []) : c.validate = false := by
  unfold SessionCheckpoint.validate
  split_ifs <;> simp_all

/-- A checkpoint with non-empty identifiers and timestamp, non-empty
`participants_state` and non-negative `turn_number` validates. -/
theorem validate_true_of (c : SessionCheckpoint) (h1 : c.checkpoint_id ≠ "")
    (h2 : c.session_id ≠ "") (h3 : c.timestamp ≠ "")
    (h4 : c.participants_state ≠ []) (h5 : 0 ≤ c.turn_number) :
    c.validate = true := by
  unfold SessionCheckpoint.validate
  rw [if_neg (by simp [h1, h2, h3]), if_neg h4, if_neg (by omega)]

/-- Successful creation: with at least one participant and non-empty
identifiers, `create_checkpoint` validates and persists its checkpoint. -/
theorem create_checkpoint_ok (store : CheckpointStore) (session : DebateSession)
    (ctype : CheckpointType) (qs : Option (List (String × Rat)))
    (meta : Option (List (String × String))) (freshId now : String)
    (hp : session.participants ≠ []) (hsid : session.session_id ≠ "")
    (hid : freshId ≠ "") (hnow : now ≠ "") :
    ∃ (c : SessionCheckpoint) (store' : CheckpointStore),
      create_checkpoint store session ctype qs meta freshId now =
        Except.ok (c, store') ∧
      c.validate = true ∧ store' ctype (checkpointFilename c) = some c := by
  have hv : (SessionCheckpoint.validate
      { checkpoint_id := freshId, session_id := session.session_id,
        timestamp := now, turn_number := (session.current_turn : Int),
        checkpoint_type := ctype, status := session.status,
        participants_state := session.participants.map
          (fun p => (p.id, buildAgentState session.turn_history p)),
        quality_snapshot := qs, metadata := meta.getD [] }) = true :=
    validate_true_of _ hid hsid hnow (by simpa using hp) (Int.natCast_nonneg _)
  refine
    ⟨{ checkpoint_id := freshId, session_id := session.session_id,
       timestamp := now, turn_number := (session.current_turn : Int),
       checkpoint_type := ctype, status := session.status,
       participants_state := session.participants.map
         (fun p => (p.id, buildAgentState session.turn_history p)),
       quality_snapshot := qs, metadata := meta.getD [] },
     save_checkpoint store
       { checkpoint_id := freshId, session_id := session.session_id,
         timestamp := now, turn_number := (session.current_turn : Int),
         checkpoint_type := ctype, status := session.status,
         participants_state := session.participants.map
           (fun p => (p.id, buildAgentState session.turn_history p)),
         quality_snapshot := qs, metadata := meta.getD [] },
     ?_, hv, ?_⟩
  · unfold create_checkpoint
    dsimp only
    rw [hv]
    simp
  · simp [save_checkpoint]

/-- C7: a checkpoint with empty `participants_state` (in particular, one
built for a session without participants), or with an empty
`checkpoint_id`, `session_id` or `timestamp`, or a negative `turn_number`,
fails validation — and `create_checkpoint` then raises without persisting;
while for every session with at least one participant (and non-empty
fresh id, session id and timestamp) the created checkpoint validates and
is persisted. -/
theorem checkpoint_validation :
    (∀ (store : CheckpointStore) (session : DebateSession)
        (ctype : CheckpointType) (qs : Option (List (String × Rat)))
        (meta : Option (List (String × String))) (freshId now : String),
      session.participants = [] →
      create_checkpoint store session ctype qs meta freshId now =
        Except.error "Invalid checkpoint data") ∧
    (∀ c : SessionCheckpoint,
      (c.checkpoint_id = "" ∨ c.session_id = "" ∨ c.timestamp = "" ∨
        c.turn_number < 0 ∨ c.participants_state = []) →
      c.validate = false) ∧
    (∀ (store : CheckpointStore) (session : DebateSession)
        (ctype : CheckpointType) (qs : Option (List (String × Rat)))
        (meta : Option (List (String × String))) (freshId now : String),
      session.participants ≠ [] → session.session_id ≠ "" → freshId ≠ "" →
      now ≠ "" →
      ∃ (c : SessionCheckpoint) (store' : CheckpointStore),
        create_checkpoint store session ctype qs meta freshId now =
          Except.ok (c, store') ∧
        c.validate = true ∧ store' ctype (checkpointFilename c) = some c) := by
  refine ⟨?_, ?_, ?_⟩
  · intro store session ctype qs meta freshId now hp
    unfold create_checkpoint
    dsimp only
    rw [validate_empty_participants
      { checkpoint_id := freshId, session_id := session.session_id,
        timestamp := now, turn_number := (session.current_turn : Int),
        checkpoint_type := ctype, status := session.status,
        participants_state := session.participants.map
          (fun p => (p.id, buildAgentState session.turn_history p)),
        quality_snapshot := qs, metadata := meta.getD [] }
      (by simp [hp])]
    simp
  · intro c h
    unfold SessionCheckpoint.validate
    split_ifs <;> first
      | rfl
      | (exfalso; rcases h with h | h | h | h | h <;> simp_all)
  · intro store session ctype qs meta freshId now hp hsid hid hnow
    exact create_checkpoint_ok store session ctype qs meta freshId now hp hsid hid hnow

/-- Witness for C7: the created checkpoint of a one-participant session
validates and sits in the store partition under its filename, while the
same session with an empty participant list is rejected. -/
theorem checkpoint_validation_witness :
    create_checkpoint CheckpointStore.empty
      { session_id := "s1", topic := "T", participants := [],
        status := SessionStatus.active, created_at := "t0", updated_at := "t0",
        turn_history := [], current_turn := 0, max_turns := 10, metadata := [] }
      CheckpointType.automatic none none "cp1" "t1" =
      Except.error "Invalid checkpoint data" ∧
    ∃ (c : SessionCheckpoint) (store' : CheckpointStore),
      create_checkpoint CheckpointStore.empty
        { session_id := "s1", topic := "T",
          participants := [{ id := "a", name := "A", role := some "pro" }],
          status := SessionStatus.active, created_at := "t0", updated_at := "t0",
          turn_history := [], current_turn := 0, max_turns := 10, metadata := [] }
        CheckpointType.automatic none none "cp1" "t1" =
        Except.ok (c, store') ∧
      c.validate = true ∧
      store' CheckpointType.automatic (checkpointFilename c) = some c :=
  ⟨checkpoint_validation.1 CheckpointStore.empty
      { session_id := "s1", topic := "T", participants := [],
        status := SessionStatus.active, created_at := "t0", updated_at := "t0",
        turn_history := [], current_turn := 0, max_turns := 10, metadata := [] }
      CheckpointType.automatic none none "cp1" "t1" rfl,
   checkpoint_validation.2.2 CheckpointStore.empty
      { session_id := "s1", topic := "T",
        participants := [{ id := "a", name := "A", role := some "pro" }],
        status := SessionStatus.active, created_at := "t0", updated_at := "t0",
        turn_history := [], current_turn := 0, max_turns := 10, metadata := [] }
      CheckpointType.automatic none none "cp1" "t1"
      (by decide) (by decide) (by decide) (by decide)⟩

/-! ## C8: checkpoint serialization round-trip -/

/-- The agent-state dictionaries rebuild the original agent states. -/
theorem participants_roundtrip (l : List (String × AgentState)) :
    (l.map (fun p => (p.1, AgentState.asdict p.2))).map
      (fun p => (p.1, AgentStateDict.toState p.2)) = l := by
  induction l with
  | nil => rfl
  | cons p rest ih =>
    rw [List.map_cons, List.map_cons, ih]
    rfl

/-- `CheckpointType(t.value)` recovers `t`. -/
theorem ofValue_value_ct (t : CheckpointType) :
    CheckpointType.ofValue t.value = some t := by
  cases t <;> rfl

/-- `SessionStatus(s.value)` recovers `s`. -/
theorem ofValue_value_ss (s : SessionStatus) :
    SessionStatus.ofValue s.value = some s := by
  cases s <;> rfl

/-- C8: every valid checkpoint — timestamp, both enums, nested agent
states, optional quality snapshot and metadata included — round-trips
through `to_dict` then `from_dict` to a field-by-field equal value. -/
theorem checkpoint_roundtrip (c : SessionCheckpoint) (h : c.validate = true) :
    SessionCheckpoint.from_dict (SessionCheckpoint.to_dict c) = Except.ok c := by
  unfold SessionCheckpoint.from_dict SessionCheckpoint.to_dict
  simp only [ofValue_value_ct, ofValue_value_ss]
  rw [participants_roundtrip]

/-- Witness for C8 on a concrete valid checkpoint with a nested agent
state, a quality snapshot and metadata. -/
theorem checkpoint_roundtrip_witness :
    SessionCheckpoint.validate
      { checkpoint_id := "cp1", session_id := "s1",
        timestamp := "2026-01-01T00:00:00", turn_number := 1,
        checkpoint_type := CheckpointType.automatic,
        status := SessionStatus.active,
        participants_state :=
          [("a", { agent_id := "a", last_response := "hello", response_time := 1,
                   turn_count := 1,
                   personality_params := [("name", "A"), ("role", "pro")],
                   conversation_summary := "hello..." })],
        quality_snapshot := some [("coherence", 1)],
        metadata := [("k", "v")] } = true ∧
    SessionCheckpoint.from_dict (SessionCheckpoint.to_dict
      { checkpoint_id := "cp1", session_id := "s1",
        timestamp := "2026-01-01T00:00:00", turn_number := 1,
        checkpoint_type := CheckpointType.automatic,
        status := SessionStatus.active,
        participants_state :=
          [("a", { agent_id := "a", last_response := "hello", response_time := 1,
                   turn_count := 1,
                   personality_params := [("name", "A"), ("role", "pro")],
                   conversation_summary := "hello..." })],
        quality_snapshot := some [("coherence", 1)],
        metadata := [("k", "v")] }) =
      Except.ok
      { checkpoint_id := "cp1", session_id := "s1",
        timestamp := "2026-01-01T00:00:00", turn_number := 1,
        checkpoint_type := CheckpointType.automatic,
        status := SessionStatus.active,
        participants_state :=
          [("a", { agent_id := "a", last_response := "hello", response_time := 1,
                   turn_count := 1,
                   personality_params := [("name", "A"), ("role", "pro")],
                   conversation_summary := "hello..." })],
        quality_snapshot := some [("coherence", 1)],
        metadata := [("k", "v")] } :=
  ⟨by decide,
   checkpoint_roundtrip
    { checkpoint_id := "cp1", session_id := "s1",
      timestamp := "2026-01-01T00:00:00", turn_number := 1,
      checkpoint_type := CheckpointType.automatic,
      status := SessionStatus.active,
      participants_state :=
        [("a", { agent_id := "a", last_response := "hello", response_time := 1,
                 turn_count := 1,
                 personality_params := [("name", "A"), ("role", "pro")],
                 conversation_summary := "hello..." })],
      quality_snapshot := some [("coherence", 1)],
      metadata := [("k", "v")] } (by decide)⟩

/-! ## Branch equations for the session operations -/

theorem save_session_completed (st : SessionManagerState) (s : DebateSession)
    (h : s.status = SessionStatus.completed) :
    save_session st s =
      { st with archive_store := st.archive_store.set s.session_id s } := by
  simp [save_session, h]

theorem save_session_not_completed (st : SessionManagerState) (s : DebateSession)
    (h : s.status ≠ SessionStatus.completed) :
    save_session st s =
      { st with live_store := st.live_store.set s.session_id s } := by
  simp [save_session, h]

theorem complete_session_found (st : SessionManagerState) (sid now : String)
    (session : DebateSession) (hac : st.active_sessions sid = some session) :
    complete_session st sid now =
      (true,
        { active_sessions := st.active_sessions.erase sid,
          live_store := st.live_store.erase sid,
          archive_store := st.archive_store.set session.session_id
            { session with status := SessionStatus.completed, updated_at := now } }) := by
  unfold complete_session
  rw [hac]
  dsimp only
  rw [save_session_completed _ _ rfl]

theorem add_turn_eq_none (st : SessionManagerState) (sid aid aname msg : String)
    (rt : Rat) (now : String) (hac : st.active_sessions sid = none) :
    add_turn st sid aid aname msg rt now = (false, st) := by
  unfold add_turn
  rw [hac]

theorem add_turn_eq_bad (st : SessionManagerState) (sid aid aname msg : String)
    (rt : Rat) (now : String) (session : DebateSession)
    (hac : st.active_sessions sid = some session)
    (hbad : session.status ≠ SessionStatus.active ∧ session.status ≠ SessionStatus.pending) :
    add_turn st sid aid aname msg rt now = (false, st) := by
  unfold add_turn
  rw [hac]
  dsimp only
  rw [if_pos hbad]

theorem add_turn_eq_mid (st : SessionManagerState) (sid aid aname msg : String)
    (rt : Rat) (now : String) (session : DebateSession)
    (hac : st.active_sessions sid = some session)
    (hok : session.status = SessionStatus.pending ∨ session.status = SessionStatus.active)
    (hlt : session.current_turn + 1 < session.max_turns) :
    add_turn st sid aid aname msg rt now =
      (true, save_session
        { st with active_sessions := (st.active_sessions.set sid
            (appendTurn (activate session) aid aname msg rt now)) }
        (appendTurn (activate session) aid aname msg rt now)) := by
  unfold add_turn
  rw [hac]
  dsimp only
  rw [if_neg (by tauto), if_neg (by
    simp only [appendTurn_max_turns, appendTurn_current_turn, activate_max_turns,
      activate_current_turn]
    omega)]

theorem add_turn_eq_fin (st : SessionManagerState) (sid aid aname msg : String)
    (rt : Rat) (now : String) (session : DebateSession)
    (hac : st.active_sessions sid = some session)
    (hok : session.status = SessionStatus.pending ∨ session.status = SessionStatus.active)
    (hge : session.max_turns ≤ session.current_turn + 1) :
    add_turn st sid aid aname msg rt now =
      (true, save_session
        (complete_session
          { st with active_sessions := (st.active_sessions.set sid
              { appendTurn (activate session) aid aname msg rt now with
                status := SessionStatus.completed }) }
          sid now).2
        { appendTurn (activate session) aid aname msg rt now with
          status := SessionStatus.completed }) := by
  unfold add_turn
  rw [hac]
  dsimp only
  rw [if_neg (by tauto), if_pos (by
    simp only [appendTurn_max_turns, appendTurn_current_turn, activate_max_turns,
      activate_current_turn]
    omega)]

/-! ## Components of the post-`add_turn` states -/

theorem mid_state_active (st : SessionManagerState) (sid : String)
    (s2 : DebateSession) (h2 : s2.session_id = sid)
    (hnc : s2.status ≠ SessionStatus.completed) :
    (save_session { st with active_sessions := (st.active_sessions.set sid s2) }
      s2).active_sessions sid = some s2 := by
  rw [save_session_not_completed _ _ hnc]
  exact StrMap.get_set_self _ _ _

theorem fin_state_components (st : SessionManagerState) (sid now : String)
    (s3 : DebateSession) (hs3 : s3.session_id = sid)
    (hc : s3.status = SessionStatus.completed) :
    (save_session (complete_session
        { st with active_sessions := (st.active_sessions.set sid s3) } sid now).2
      s3).active_sessions sid = none ∧
    (save_session (complete_session
        { st with active_sessions := (st.active_sessions.set sid s3) } sid now).2
      s3).live_store sid = none ∧
    (save_session (complete_session
        { st with active_sessions := (st.active_sessions.set sid s3) } sid now).2
      s3).archive_store sid = some s3 := by
  rw [complete_session_found _ sid now s3 (StrMap.get_set_self _ _ _)]
  rw [save_session_completed _ _ hc]
  refine ⟨StrMap.get_erase_self _ _, StrMap.get_erase_self _ _, ?_⟩
  show ((st.archive_store.set s3.session_id _).set s3.session_id s3) sid = some s3
  rw [StrMap.get_set, if_pos hs3.symm]

/-! ## Well-numbering lemmas -/

theorem wellNumbered_activate (s : DebateSession) (h : WellNumbered s) :
    WellNumbered (activate s) := by
  unfold activate
  split
  · exact h
  · exact h

theorem wellNumbered_appendTurn (s : DebateSession) (aid aname msg : String)
    (rt : Rat) (now : String) (h : WellNumbered s) :
    WellNumbered (appendTurn s aid aname msg rt now) := by
  obtain ⟨h1, h2⟩ := h
  refine ⟨by simp [appendTurn, h1], ?_⟩
  unfold appendTurn
  dsimp only
  rw [List.map_append, List.length_append, h2]
  simp only [List.map_cons, List.map_nil, List.length_cons, List.length_nil,
    Nat.zero_add]
  rw [List.range'_1_concat, h1, Nat.add_comm 1 s.turn_history.length]

/-! ## C1: turn monotonicity and the session invariant -/

theorem inv_after_mid_save (st : SessionManagerState) (sid tsid : String)
    (s2 : DebateSession) (hs2 : s2.session_id = sid)
    (hnc : s2.status ≠ SessionStatus.completed)
    (hwn : tsid = sid → WellNumbered s2)
    (hkey : ∀ k s, st.active_sessions k = some s → s.session_id = k)
    (hact : ∀ s, st.active_sessions tsid = some s → WellNumbered s)
    (hlive : ∀ s, st.live_store tsid = some s → WellNumbered s)
    (harch : ∀ s, st.archive_store tsid = some s → WellNumbered s) :
    SessionInvAt
      (save_session { st with active_sessions := (st.active_sessions.set sid s2) } s2)
      tsid := by
  rw [save_session_not_completed _ _ hnc]
  refine ⟨?_, ?_, ?_, ?_⟩
  · intro k s hk
    try dsimp only at hk
    rw [StrMap.get_set] at hk
    by_cases h1 : k = sid
    · rw [if_pos h1] at hk
      cases hk
      rw [hs2, h1]
    · rw [if_neg h1] at hk
      exact hkey k s hk
  · intro s hk
    try dsimp only at hk
    rw [StrMap.get_set] at hk
    by_cases h1 : tsid = sid
    · rw [if_pos h1] at hk
      cases hk
      exact hwn h1
    · rw [if_neg h1] at hk
      exact hact s hk
  · intro s hk
    try dsimp only at hk
    rw [StrMap.get_set] at hk
    by_cases h1 : tsid = s2.session_id
    · rw [if_pos h1] at hk
      cases hk
      exact hwn (h1.trans hs2)
    · rw [if_neg h1] at hk
      exact hlive s hk
  · exact harch

theorem inv_after_complete_save (st : SessionManagerState) (sid tsid now : String)
    (s3 : DebateSession) (hs3 : s3.session_id = sid)
    (hc : s3.status = SessionStatus.completed)
    (hwn : tsid = sid → WellNumbered s3)
    (hkey : ∀ k s, st.active_sessions k = some s → s.session_id = k)
    (hact : ∀ s, st.active_sessions tsid = some s → WellNumbered s)
    (hlive : ∀ s, st.live_store tsid = some s → WellNumbered s)
    (harch : ∀ s, st.archive_store tsid = some s → WellNumbered s) :
    SessionInvAt
      (save_session (complete_session
          { st with active_sessions := (st.active_sessions.set sid s3) } sid now).2
        s3)
      tsid := by
  rw [complete_session_found _ sid now s3 (StrMap.get_set_self _ _ _)]
  rw [save_session_completed _ _ hc]
  refine ⟨?_, ?_, ?_, ?_⟩
  · intro k s hk
    try dsimp only at hk
    rw [StrMap.get_erase] at hk
    by_cases h1 : k = sid
    · rw [if_pos h1] at hk
      cases hk
    · rw [if_neg h1] at hk
      rw [StrMap.get_set_ne _ _ _ h1] at hk
      exact hkey k s hk
  · intro s hk
    try dsimp only at hk
    rw [StrMap.get_erase] at hk
    by_cases h1 : tsid = sid
    · rw [if_pos h1] at hk
      cases hk
    · rw [if_neg h1] at hk
      rw [StrMap.get_set_ne _ _ _ h1] at hk
      exact hact s hk
  · intro s hk
    try dsimp only at hk
    rw [StrMap.get_erase] at hk
    by_cases h1 : tsid = sid
    · rw [if_pos h1] at hk
      cases hk
    · rw [if_neg h1] at hk
      exact hlive s hk
  · intro s hk
    try dsimp only at hk
    rw [StrMap.get_set] at hk
    by_cases h1 : tsid = s3.session_id
    · rw [if_pos h1] at hk
      cases hk
      exact hwn (h1.trans hs3)
    · rw [if_neg h1] at hk
      rw [StrMap.get_set] at hk
      rw [if_neg h1] at hk
      exact harch s hk

theorem add_turn_preserves_inv (st : SessionManagerState) (sid aid aname msg : String)
    (rt : Rat) (now : String) (tsid : String) (h : SessionInvAt st tsid) :
    SessionInvAt (add_turn st sid aid aname msg rt now).2 tsid := by
  obtain ⟨hkey, hact, hlive, harch⟩ := h
  cases hac : st.active_sessions sid with
  | none =>
    rw [add_turn_eq_none st sid aid aname msg rt now hac]
    exact ⟨hkey, hact, hlive, harch⟩
  | some session =>
    by_cases hok : session.status = SessionStatus.pending ∨
        session.status = SessionStatus.active
    · have hsid : session.session_id = sid := hkey sid session hac
      have hwn : tsid = sid →
          WellNumbered (appendTurn (activate session) aid aname msg rt now) :=
        fun ht => wellNumbered_appendTurn _ aid aname msg rt now
          (wellNumbered_activate _ (hact session (ht ▸ hac)))
      by_cases hge : session.max_turns ≤ session.current_turn + 1
      · rw [add_turn_eq_fin st sid aid aname msg rt now session hac hok hge]
        dsimp only
        refine inv_after_complete_save st sid tsid now _ ?_ ?_ ?_ hkey hact hlive harch
        · simp [hsid]
        · rfl
        · exact hwn
      · rw [add_turn_eq_mid st sid aid aname msg rt now session hac hok (by omega)]
        dsimp only
        refine inv_after_mid_save st sid tsid _ ?_ ?_ ?_ hkey hact hlive harch
        · simp [hsid]
        · simp [activate_status_of_ok hok]
        · exact hwn
    · rw [add_turn_eq_bad st sid aid aname msg rt now session hac (by tauto)]
      exact ⟨hkey, hact, hlive, harch⟩

theorem create_session_inv (st : SessionManagerState) (topic : String)
    (parts : List Participant) (maxT : Nat) (sid now : String)
    (hkey : ∀ k s, st.active_sessions k = some s → s.session_id = k)
    (harch : st.archive_store sid = none) :
    SessionInvAt (create_session st topic parts maxT sid now).2 sid := by
  unfold create_session
  dsimp only
  rw [save_session_not_completed _ _ (by simp)]
  refine ⟨?_, ?_, ?_, ?_⟩
  · intro k s hk
    try dsimp only at hk
    rw [StrMap.get_set] at hk
    by_cases h1 : k = sid
    · rw [if_pos h1] at hk
      cases hk
      rw [h1]
    · rw [if_neg h1] at hk
      exact hkey k s hk
  · intro s hk
    try dsimp only at hk
    rw [StrMap.get_set, if_pos rfl] at hk
    cases hk
    exact ⟨rfl, rfl⟩
  · intro s hk
    try dsimp only at hk
    rw [StrMap.get_set] at hk
    try dsimp only at hk
    rw [if_pos rfl] at hk
    cases hk
    exact ⟨rfl, rfl⟩
  · intro s hk
    try dsimp only at hk
    rw [harch] at hk
    cases hk

theorem runCalls_preserves_inv (tsid : String) (cs : List AddTurnCall) :
    ∀ st : SessionManagerState, SessionInvAt st tsid →
      SessionInvAt (runCalls st cs) tsid := by
  induction cs with
  | nil => intro st h; exact h
  | cons c rest ih =>
    intro st h
    exact ih _ (add_turn_preserves_inv st c.session_id c.agent_id c.agent_name
      c.message c.response_time c.now tsid h)

/-- C1: starting from a manager state whose in-memory sessions are keyed by
their own ids and whose archive has no record under the fresh id, a session
made by `create_session` satisfies `current_turn = len(turn_history)` with
turn numbers `1, 2, 3, …`, and the invariant still holds for the record
stored under that id — in memory, in the live store or in the archive —
after any sequence of `add_turn` calls (so in particular after every
successful one). -/
theorem turn_monotonicity_invariant (st0 : SessionManagerState) (topic : String)
    (parts : List Participant) (maxT : Nat) (sid now : String)
    (cs : List AddTurnCall)
    (hkey : ∀ k s, st0.active_sessions k = some s → s.session_id = k)
    (harch : st0.archive_store sid = none) :
    SessionInvAt (runCalls (create_session st0 topic parts maxT sid now).2 cs) sid :=
  runCalls_preserves_inv sid cs _
    (create_session_inv st0 topic parts maxT sid now hkey harch)

/-- Witness for C1: from the empty manager state, create a session and run
one `add_turn` call on it; the invariant holds for the stored record. -/
theorem turn_monotonicity_invariant_witness :
    SessionInvAt
      (runCalls (create_session SessionManagerState.empty "T" [] 2 "s1" "t0").2
        [{ session_id := "s1", agent_id := "a", agent_name := "A", message := "m",
           response_time := 1, now := "t1" }]) "s1" :=
  turn_monotonicity_invariant SessionManagerState.empty "T" [] 2 "s1" "t0"
    [{ session_id := "s1", agent_id := "a", agent_name := "A", message := "m",
       response_time := 1, now := "t1" }]
    (fun k s hk => Option.noConfusion hk) rfl

/-! ## C2: completion transition -/

theorem addTurnSeqR_inactive (sid : String) (st : SessionManagerState)
    (h : st.active_sessions sid = none) :
    ∀ extra : List TurnArgs,
      addTurnSeqR st sid extra = (List.replicate extra.length false, st) := by
  intro extra
  induction extra with
  | nil => rfl
  | cons a rest ih =>
    simp only [addTurnSeqR]
    rw [add_turn_eq_none st sid a.agent_id a.agent_name a.message a.response_time
      a.now h]
    dsimp only
    rw [ih]
    simp [List.replicate_succ]

theorem addTurnSeq_completes (sid : String) (n : Nat) :
    ∀ (args : List TurnArgs) (st : SessionManagerState) (session : DebateSession),
      st.active_sessions sid = some session →
      session.session_id = sid →
      (session.status = SessionStatus.pending ∨ session.status = SessionStatus.active) →
      session.max_turns = n →
      session.current_turn + args.length = n →
      args ≠ [] →
      (addTurnSeqR st sid args).1 = List.replicate args.length true ∧
      (addTurnSeqR st sid args).2.active_sessions sid = none ∧
      (addTurnSeqR st sid args).2.live_store sid = none ∧
      ∃ s', (addTurnSeqR st sid args).2.archive_store sid = some s' ∧
        s'.status = SessionStatus.completed ∧ s'.current_turn = n := by
  intro args
  induction args with
  | nil => intro st session _ _ _ _ _ hne; exact absurd rfl hne
  | cons a rest ih =>
    intro st session hac hsid hok hmax hsum hne
    cases rest with
    | nil =>
      have hge : session.max_turns ≤ session.current_turn + 1 := by
        simp only [List.length_cons, List.length_nil] at hsum
        omega
      simp only [addTurnSeqR]
      rw [add_turn_eq_fin st sid a.agent_id a.agent_name a.message a.response_time
        a.now session hac hok hge]
      dsimp only
      obtain ⟨hA, hL, hR⟩ := fin_state_components st sid a.now
        { appendTurn (activate session) a.agent_id a.agent_name a.message
            a.response_time a.now with status := SessionStatus.completed }
        (by simp [hsid]) rfl
      refine ⟨rfl, hA, hL, _, hR, rfl, ?_⟩
      dsimp only
      simp only [appendTurn_current_turn, activate_current_turn]
      simp only [List.length_cons, List.length_nil] at hsum
      omega
    | cons b rest' =>
      have hlt : session.current_turn + 1 < session.max_turns := by
        simp only [List.length_cons] at hsum
        omega
      simp only [addTurnSeqR]
      rw [add_turn_eq_mid st sid a.agent_id a.agent_name a.message a.response_time
        a.now session hac hok hlt]
      dsimp only
      have hmid := mid_state_active st sid
        (appendTurn (activate session) a.agent_id a.agent_name a.message
          a.response_time a.now)
        (by simp [hsid]) (by simp [activate_status_of_ok hok])
      obtain ⟨h1, h2, h3, h4⟩ := ih _ _ hmid (by simp [hsid])
        (Or.inr (by simp [activate_status_of_ok hok]))
        (by simp [hmax])
        (by
          simp only [appendTurn_current_turn, activate_current_turn, List.length_cons]
          simp only [List.length_cons] at hsum
          omega)
        (by simp)
      refine ⟨?_, h2, h3, h4⟩
      simp only [addTurnSeqR] at h1
      rw [h1]
      simp [List.replicate_succ]

/-- C2: a session created with `max_turns = n ≥ 1`, driven by exactly `n`
`add_turn` calls, returns `true` on each of them, ends COMPLETED with
`current_turn = n`, has its persisted record moved from the live store to
the archival store, and every subsequent `add_turn` call on that id
returns `false` (leaving the state unchanged). -/
theorem completion_transition (st0 : SessionManagerState) (topic : String)
    (parts : List Participant) (n : Nat) (sid now0 : String) (args : List TurnArgs)
    (hn : 1 ≤ n) (hlen : args.length = n) :
    (addTurnSeqR (create_session st0 topic parts n sid now0).2 sid args).1 =
      List.replicate n true ∧
    (addTurnSeqR (create_session st0 topic parts n sid now0).2 sid
      args).2.active_sessions sid = none ∧
    (addTurnSeqR (create_session st0 topic parts n sid now0).2 sid
      args).2.live_store sid = none ∧
    (∃ s', (addTurnSeqR (create_session st0 topic parts n sid now0).2 sid
        args).2.archive_store sid = some s' ∧
      s'.status = SessionStatus.completed ∧ s'.current_turn = n) ∧
    (∀ extra : List TurnArgs,
      addTurnSeqR
        (addTurnSeqR (create_session st0 topic parts n sid now0).2 sid args).2
        sid extra =
      (List.replicate extra.length false,
        (addTurnSeqR (create_session st0 topic parts n sid now0).2 sid args).2)) := by
  have hcr : (create_session st0 topic parts n sid now0).2.active_sessions sid =
      some { session_id := sid, topic := topic, participants := parts,
             status := SessionStatus.pending, created_at := now0,
             updated_at := now0, turn_history := [], current_turn := 0,
             max_turns := n, metadata := [] } := by
    unfold create_session
    dsimp only
    rw [save_session_not_completed _ _ (by simp)]
    exact StrMap.get_set_self _ _ _
  obtain ⟨h1, h2, h3, h4⟩ := addTurnSeq_completes sid n args _ _ hcr rfl (Or.inl rfl)
    rfl (by simpa using hlen)
    (by intro hnil; rw [hnil] at hlen; simp at hlen; omega)
  refine ⟨by rw [h1, hlen], h2, h3, h4, ?_⟩
  intro extra
  exact addTurnSeqR_inactive sid _ h2 extra

/-- Witness for C2: a fresh two-turn session driven by two `add_turn`
calls ends COMPLETED in the archive, both calls having returned `true`,
and one further call returns `false` and changes nothing. -/
theorem completion_transition_witness :
    (addTurnSeqR (create_session SessionManagerState.empty "T" [] 2 "s1" "t0").2 "s1"
      [{ agent_id := "a", agent_name := "A", message := "m1", response_time := 1,
         now := "t1" },
       { agent_id := "b", agent_name := "B", message := "m2", response_time := 1,
         now := "t2" }]).1 = List.replicate 2 true ∧
    (addTurnSeqR (create_session SessionManagerState.empty "T" [] 2 "s1" "t0").2 "s1"
      [{ agent_id := "a", agent_name := "A", message := "m1", response_time := 1,
         now := "t1" },
       { agent_id := "b", agent_name := "B", message := "m2", response_time := 1,
         now := "t2" }]).2.active_sessions "s1" = none ∧
    (addTurnSeqR (create_session SessionManagerState.empty "T" [] 2 "s1" "t0").2 "s1"
      [{ agent_id := "a", agent_name := "A", message := "m1", response_time := 1,
         now := "t1" },
       { agent_id := "b", agent_name := "B", message := "m2", response_time := 1,
         now := "t2" }]).2.live_store "s1" = none ∧
    (∃ s', (addTurnSeqR (create_session SessionManagerState.empty "T" [] 2 "s1" "t0").2
        "s1"
        [{ agent_id := "a", agent_name := "A", message := "m1", response_time := 1,
           now := "t1" },
         { agent_id := "b", agent_name := "B", message := "m2", response_time := 1,
           now := "t2" }]).2.archive_store "s1" = some s' ∧
      s'.status = SessionStatus.completed ∧ s'.current_turn = 2) ∧
    (∀ extra : List TurnArgs,
      addTurnSeqR
        (addTurnSeqR (create_session SessionManagerState.empty "T" [] 2 "s1" "t0").2
          "s1"
          [{ agent_id := "a", agent_name := "A", message := "m1", response_time := 1,
             now := "t1" },
           { agent_id := "b", agent_name := "B", message := "m2", response_time := 1,
             now := "t2" }]).2 "s1" extra =
      (List.replicate extra.length false,
        (addTurnSeqR (create_session SessionManagerState.empty "T" [] 2 "s1" "t0").2
          "s1"
          [{ agent_id := "a", agent_name := "A", message := "m1", response_time := 1,
             now := "t1" },
           { agent_id := "b", agent_name := "B", message := "m2", response_time := 1,
             now := "t2" }]).2)) :=
  completion_transition SessionManagerState.empty "T" [] 2 "s1" "t0"
    [{ agent_id := "a", agent_name := "A", message := "m1", response_time := 1,
       now := "t1" },
     { agent_id := "b", agent_name := "B", message := "m2", response_time := 1,
       now := "t2" }]
    (by decide) rfl
